import Mathlib
/-!
Verification development for the resume/job compatibility analyzer
(`analyzer.py`, `resume_parser.py`).

Python floats are modelled by `ℚ` (exact rational arithmetic); Python's
`round(x, n)` (round-half-to-even at a tie) is modelled by `pyRoundInt`
below.  All arithmetic on `ℚ` inside executable definitions goes through
the `q*` wrappers, which are kernel-reducible (the library's `Rat.add`
etc. are irreducible and would block kernel evaluation); the `q*_eq`
bridge lemmas identify them with the ordinary field operations.
-/

/-! ### Computable rational arithmetic -/

/-- Computable negation on `ℚ` (kernel-reducible). -/
def qneg (a : ℚ) : ℚ := Rat.divInt (-a.num) a.den
/-- Computable addition on `ℚ` (kernel-reducible). -/
def qadd (a b : ℚ) : ℚ := Rat.divInt (a.num * b.den + b.num * a.den) (a.den * b.den)
/-- Computable subtraction on `ℚ` (kernel-reducible). -/
def qsub (a b : ℚ) : ℚ := qadd a (qneg b)
/-- Computable multiplication on `ℚ` (kernel-reducible). -/
def qmul (a b : ℚ) : ℚ := Rat.divInt (a.num * b.num) (a.den * b.den)
/-- Computable division on `ℚ` (kernel-reducible); division by zero gives zero,
as in Lean's field division (the embedded code never divides by zero). -/
def qdiv (a b : ℚ) : ℚ := Rat.divInt (a.num * b.den) (b.num * a.den)
/-- Python's `round(x)` on a rational value: round half to even.
Python rounds binary doubles, so an exact tie can only arise from a value
that is exactly representable; the developments below never evaluate
`pyRoundInt` at a tie, and away from ties every rounding mode agrees. -/
def pyRoundInt (q : ℚ) : ℤ :=
  if qsub q ((Rat.floor q : ℤ) : ℚ) = Rat.divInt 1 2 then
    (if Rat.floor q % 2 = 0 then Rat.floor q else Rat.floor q + 1)
  else Rat.floor (qadd q (Rat.divInt 1 2))
/-- Python's `round(x, 1)`. -/
def pyRound1 (q : ℚ) : ℚ := qdiv ((pyRoundInt (qmul q 10) : ℤ) : ℚ) 10
/-- Python's `round(x, 2)`. -/
def pyRound2 (q : ℚ) : ℚ := qdiv ((pyRoundInt (qmul q 100) : ℤ) : ℚ) 100
/-- Sum of a list of rationals through the computable `qadd` (Python `sum`). -/
def qsum : List ℚ → ℚ
  | [] => 0
  | x :: xs => qadd x (qsum xs)
/-! ### Python string primitives, modelled on `List Char` -/

/-- Python `str.lower` for the character ranges occurring in this
repository (ASCII letters and Cyrillic А-Я / Ё); other characters are
unchanged. -/
def pyLower (c : Char) : Char :=
  if 'A' ≤ c ∧ c ≤ 'Z' then Char.ofNat (c.toNat + 32)
  else if 'А' ≤ c ∧ c ≤ 'Я' then Char.ofNat (c.toNat + 32)
  else if c = 'Ё' then 'ё'
  else c
/-- `text.lower()` on a character list. -/
def lowerL (s : List Char) : List Char := s.map pyLower
/-- `s.lower()` on a `String`. -/
def lowerS (s : String) : String := String.mk (lowerL s.data)
/-- Python's substring test `needle in hay`. -/
def containsSub (needle hay : List Char) : Bool :=
  (List.range (hay.length + 1)).any (fun i => needle.isPrefixOf (hay.drop i))
/-- Python whitespace for `str.split()` / `str.strip()` (ASCII part; the
texts in this development contain no exotic Unicode spaces). -/
def pyIsSpace (c : Char) : Bool :=
  c = ' ' ∨ c = '\t' ∨ c = '\n' ∨ c = '\r' ∨ c = '\x0b' ∨ c = '\x0c'
/-- Python `str.split()` with no argument: split on whitespace runs,
dropping empty fragments. -/
def pyWords (s : List Char) : List (List Char) :=
  (s.splitOnP pyIsSpace).filter (fun w => ¬ w.isEmpty)
/-- Python `str.find`: index of the leftmost occurrence, `-1` if absent. -/
def pyFind (needle hay : List Char) : Int :=
  match (List.range (hay.length + 1)).find? (fun i => needle.isPrefixOf (hay.drop i)) with
  | some i => (i : Int)
  | none => -1
/-- Python slice `s[a:b]` for `0 ≤ a`, `0 ≤ b` (the only shape the embedded
code uses); out-of-range bounds clamp, `b ≤ a` gives `[]`. -/
def pySlice (s : List Char) (a b : Int) : List Char :=
  (s.drop a.toNat).take (b.toNat - a.toNat)
/-- Python `f"{x:.0f}"`: round half-to-even to an integer and print it.
(For a negative value rounding to zero CPython prints `-0`; the analyzer
only ever formats non-negative scores, where the two agree.) -/
def formatF0 (q : ℚ) : String := toString (pyRoundInt q)
/-- Python `min(x, y)` on rationals (kernel-reducible). -/
def pyMin (a b : ℚ) : ℚ := if a ≤ b then a else b
/-- Python `max(x, y)` on naturals (kernel-reducible; Mathlib's `max`
elaborates to the lattice operation, which the kernel cannot evaluate). -/
def pyMaxN (a b : ℕ) : ℕ := if a ≤ b then b else a
/-- Python `max(x, y)` on integers (kernel-reducible). -/
def pyMaxI (a b : ℤ) : ℤ := if a ≤ b then b else a
/-! ### Data model (`resume_data` / `job_data` dictionaries) -/

/-- The fields of the parsed-resume dictionary consumed by the analyzer
(`text`, `skills`, `experience`, `education`; `languages` is display-only
and never read by the analyzer). -/
structure ResumeData where
  text : String
  skills : List String
  experience : String
  education : String
  deriving DecidableEq
/-- The fields of the parsed-job dictionary consumed by the analyzer. -/
structure JobData where
  text : String
  skills : List String
  requirements : String
  education_required : String
  deriving DecidableEq
/-- Score/max pair returned by the `_compare_*_detailed` helpers.  The
`details` trace lists and the `matching_skills`/`missing_skills` echo
lists are presentational strings unused by every claim and are not
modelled. -/
structure ScoreResult where
  score : ℚ
  max : ℚ
  deriving DecidableEq
/-- One category entry of the breakdown dictionary (presentational
fields omitted, see `ScoreResult`). -/
structure BreakdownEntry where
  score : ℚ
  max : ℚ
  percentage : ℚ
  not_specified : Bool
  deriving DecidableEq
/-- The five-category breakdown dictionary (fixed keys, insertion order
`required_skills, preferred_skills, experience, education, soft_skills`). -/
structure Breakdown where
  required_skills : BreakdownEntry
  preferred_skills : BreakdownEntry
  experience : BreakdownEntry
  education : BreakdownEntry
  soft_skills : BreakdownEntry
  deriving DecidableEq
/-- `breakdown.items()` in dictionary insertion order. -/
def Breakdown.items (b : Breakdown) : List (String × BreakdownEntry) :=
  [("required_skills", b.required_skills), ("preferred_skills", b.preferred_skills),
   ("experience", b.experience), ("education", b.education), ("soft_skills", b.soft_skills)]
/-- A row of the skills table. -/
structure SkillRow where
  skill : String
  status : String
  status_icon : String
  status_text : String
  level : String
  action : String
  deriving DecidableEq
/-- A gap entry. -/
structure Gap where
  category : String
  items : List String
  description : String
  deriving DecidableEq
/-! ### `CompatibilityAnalyzer` scoring helpers (`analyzer.py`) -/

/-- `_compare_skills_detailed` (analyzer.py:152-211).  `matching_skills_set`
is `set(resume_lower) & set(job_lower)`; its cardinality is computed here
as the number of distinct lowered job skills present among the lowered
resume skills. -/
def compare_skills_detailed (resume_skills job_skills : List String) (max_score : ℚ) :
    ScoreResult :=
  if job_skills.isEmpty then { score := max_score, max := max_score }
  else if resume_skills.isEmpty then { score := 0, max := max_score }
  else
    let resume_skills_lower := resume_skills.map lowerS
    let job_skills_lower := job_skills.map lowerS
    let matching_count := (job_skills_lower.dedup.filter (fun s => s ∈ resume_skills_lower)).length
    let score := qmul (qdiv (matching_count : ℚ) (job_skills_lower.length : ℚ)) max_score
    { score := pyRound1 score, max := max_score }
/-- `_simple_text_comparison` (analyzer.py:555-564): bag-of-words overlap
`|set(words1) ∩ set(words2)| / |set(words2)|`, `1.0` when `text2` has no
words. -/
def simple_text_comparison (text1 text2 : String) : ℚ :=
  let words1 := (pyWords (lowerL text1.data)).dedup
  let words2 := (pyWords (lowerL text2.data)).dedup
  if words2.isEmpty then 1
  else qdiv (((words2.filter (fun w => w ∈ words1)).length : ℚ)) ((words2.length : ℚ))
/-- `_compare_experience_detailed` (analyzer.py:213-235). -/
def compare_experience_detailed (resume_experience job_requirements : String) (max_score : ℚ) :
    ScoreResult :=
  if job_requirements.isEmpty then { score := max_score, max := max_score }
  else
    let similarity := simple_text_comparison resume_experience job_requirements
    { score := pyRound1 (qmul similarity max_score), max := max_score }
/-- Education keyword list of `_compare_education_detailed` (analyzer.py:248). -/
def education_keywords_detailed : List String :=
  ["образование", "education", "университет", "институт", "вуз", "бакалавр", "магистр"]
/-- `_compare_education_detailed` (analyzer.py:237-272). -/
def compare_education_detailed (resume_education job_education : String) (max_score : ℚ) :
    ScoreResult :=
  if job_education.isEmpty then { score := max_score, max := max_score }
  else if resume_education.isEmpty then { score := 0, max := max_score }
  else
    let resume_lower := lowerL resume_education.data
    let job_lower := lowerL job_education.data
    let resume_has_education :=
      education_keywords_detailed.any (fun kw => containsSub kw.data resume_lower)
    let job_requires_education :=
      education_keywords_detailed.any (fun kw => containsSub kw.data job_lower)
    if ¬ job_requires_education then { score := pyRound1 max_score, max := max_score }
    else if resume_has_education then { score := pyRound1 max_score, max := max_score }
    else { score := pyRound1 (qmul max_score (Rat.divInt 1 2)), max := max_score }
/-- Soft-skill keyword dictionary of `_compare_soft_skills` (analyzer.py:276-282). -/
def soft_skills_keywords : List (String × List String) :=
  [("коммуникабельность", ["коммуника", "общение", "команд", "взаимодействие"]),
   ("лидерство", ["лидер", "руковод", "управление командой"]),
   ("адаптивность", ["адаптив", "быстрое обучение", "гибкость"]),
   ("ответственность", ["ответствен", "надежн", "обязательн"]),
   ("креативность", ["креатив", "творческ", "инновацион"])]
/-- `_compare_soft_skills` (analyzer.py:274-315).  `job_mentions > 0` and
`resume_mentions > 0` are the `any`-tests below. -/
def compare_soft_skills (resume_text job_text : String) (max_score : ℚ) : ScoreResult :=
  let resume_lower := lowerL resume_text.data
  let job_lower := lowerL job_text.data
  let found_soft_skills :=
    (soft_skills_keywords.filter (fun p =>
      p.2.any (fun kw => containsSub kw.data job_lower) ∧
      p.2.any (fun kw => containsSub kw.data resume_lower))).length
  if ¬ soft_skills_keywords.any (fun p => p.2.any (fun kw => containsSub kw.data job_lower)) then
    { score := pyRound1 max_score, max := max_score }
  else
    let total_soft_skills_required :=
      (soft_skills_keywords.filter (fun p =>
        p.2.any (fun kw => containsSub kw.data job_lower))).length
    let score :=
      if 0 < total_soft_skills_required then
        qmul (qdiv (found_soft_skills : ℚ) (total_soft_skills_required : ℚ)) max_score
      else 0
    { score := pyRound1 score, max := max_score }
/-- The required/preferred split of `_calculate_detailed_breakdown`
(analyzer.py:71-78).  Python computes `int(len(job_skills) * 0.6)` on
binary doubles; for every list length the product
`float(n) * double(0.6)` truncates to `⌊0.6·n⌋` (the double product
rounds to the exact value `3n/5` whenever that is an integer, and
otherwise stays strictly inside the unit interval around it), so the
split point is modelled as `max 1 (3n/5)` with natural floor division. -/
def requiredPreferredSplit (job_skills : List String) : List String × List String :=
  if ¬ job_skills.isEmpty then
    let split_point := pyMaxN 1 (3 * job_skills.length / 5)
    (job_skills.take split_point, job_skills.drop split_point)
  else ([], [])
/-- Builds one breakdown entry from a score result (analyzer.py:108-147):
`percentage = round(score/max*100, 1) if max > 0 else 0`. -/
def mkEntry (sr : ScoreResult) (ns : Bool) : BreakdownEntry :=
  { score := sr.score, max := sr.max,
    percentage := if 0 < sr.max then pyRound1 (qmul (qdiv sr.score sr.max) 100) else 0,
    not_specified := ns }
/-- `_calculate_detailed_breakdown` (analyzer.py:61-150). -/
def calculate_detailed_breakdown (resume_data : ResumeData) (job_data : JobData) : Breakdown :=
  let split := requiredPreferredSplit job_data.skills
  let required_score := compare_skills_detailed resume_data.skills split.1 50
  let preferred_score := compare_skills_detailed resume_data.skills split.2 30
  let experience_score :=
    compare_experience_detailed resume_data.experience job_data.requirements 10
  let education_score :=
    compare_education_detailed resume_data.education job_data.education_required 5
  let soft_skills_score := compare_soft_skills resume_data.text job_data.text 5
  let skills_not_specified := resume_data.skills.isEmpty
  { required_skills := mkEntry required_score skills_not_specified,
    preferred_skills := mkEntry preferred_score skills_not_specified,
    experience := mkEntry experience_score resume_data.experience.isEmpty,
    education := mkEntry education_score resume_data.education.isEmpty,
    soft_skills := mkEntry soft_skills_score false }
/-- The `valid_categories` filter of `analyze` (analyzer.py:28). -/
def validEntries (b : Breakdown) : List BreakdownEntry :=
  (b.items.filter (fun p => ¬ p.2.not_specified)).map (fun p => p.2)
/-- The compatibility percentage before the final 2-decimal rounding
(analyzer.py:30-34). -/
def compatibilityRaw (b : Breakdown) : ℚ :=
  let valid := validEntries b
  if ¬ valid.isEmpty then
    qmul (qdiv (qsum (valid.map (fun e => e.score))) (qsum (valid.map (fun e => e.max)))) 100
  else 0
/-! ### Skills table, gaps, recommendations (`analyzer.py`) -/

/-- Alias map of `_has_partial_match` (analyzer.py:361-366). -/
def skill_variations : List (String × List String) :=
  [("docker", ["контейнер", "container"]),
   ("kubernetes", ["k8s", "оркестрация"]),
   ("python", ["django", "flask", "fastapi"]),
   ("javascript", ["js", "node", "react", "vue"])]
/-- `_has_partial_match` (analyzer.py:358-375).  The `resume_skills`
argument is accepted and ignored, exactly as in the source. -/
def has_partial_match (skill : String) (resume_skills : List String) (resume_text : String) :
    Bool :=
  let _ := resume_skills
  let resume_text_lower := lowerL resume_text.data
  skill_variations.any (fun p =>
    containsSub p.1.data skill.data ∧ p.2.any (fun v => containsSub v.data resume_text_lower))
/-- `_determine_skill_level` (analyzer.py:377-394).  When the skill does
not occur in the resume text `str.find` returns `-1` and the context
window degenerates to `resume_lower[0:49]`, as in the source. -/
def determine_skill_level (skill : String) (resume_text : String) : String :=
  let resume_lower := lowerL resume_text.data
  let skill_lower := lowerL skill.data
  let advanced_keywords := ["продвинут", "expert", "senior", "глубок", "опытный"]
  let intermediate_keywords := ["средн", "intermediate", "middle", "хорош"]
  let f := pyFind skill_lower resume_lower
  let skill_context := pySlice resume_lower (pyMaxI 0 (f - 50)) (f + 50)
  if advanced_keywords.any (fun kw => containsSub kw.data skill_context) then "Продвинутый"
  else if intermediate_keywords.any (fun kw => containsSub kw.data skill_context) then "Средний"
  else "Базовый"
/-- One iteration of the `_create_skills_table` loop (analyzer.py:324-354). -/
def skillRow (resume_skills_lower : List String) (resume_text : String) (job_skill : String) :
    SkillRow :=
  let job_skill_lower := lowerS job_skill
  if job_skill_lower ∈ resume_skills_lower then
    { skill := job_skill, status := "present", status_icon := "✅", status_text := "Есть",
      level := determine_skill_level job_skill resume_text, action := "-" }
  else if has_partial_match job_skill_lower resume_skills_lower resume_text then
    { skill := job_skill, status := "partial", status_icon := "⚠️", status_text := "Почти есть",
      level := "Средний", action := "Практиковать " ++ job_skill }
  else
    { skill := job_skill, status := "missing", status_icon := "❌", status_text := "Не хватает",
      level := "Начальный", action := "Изучить " ++ job_skill }
/-- `_create_skills_table` (analyzer.py:317-356). -/
def create_skills_table (resume_data : ResumeData) (job_data : JobData) : List SkillRow :=
  let resume_skills := resume_data.skills.map lowerS
  job_data.skills.map (skillRow resume_skills resume_data.text)
/-- `_find_gaps` (analyzer.py:595-642).  `missing_skills` is the Python
set `set(job_skills) - set(resume_skills)`; CPython iterates it in an
unspecified hash-dependent order, modelled here in first-occurrence
order (no claim depends on the order of `items`). -/
def find_gaps (resume_data : ResumeData) (job_data : JobData) : List Gap :=
  let resume_skills := resume_data.skills.map lowerS
  let job_skills := job_data.skills.map lowerS
  let missing_skills := job_skills.dedup.filter (fun s => ¬ s ∈ resume_skills)
  let skills_gaps : List Gap :=
    if ¬ missing_skills.isEmpty then
      [{ category := "Навыки", items := missing_skills,
         description := "Отсутствуют навыки: " ++ String.intercalate ", " (missing_skills.take 5) }]
    else []
  let job_requirements := lowerL job_data.requirements.data
  let resume_experience := lowerL resume_data.experience.data
  let requirement_keywords := ["опыт", "experience", "работал", "проект", "project"]
  let missing_experience := requirement_keywords.filter (fun kw =>
    containsSub kw.data job_requirements ∧ ¬ containsSub kw.data resume_experience)
  let experience_gaps : List Gap :=
    if ¬ missing_experience.isEmpty ∧ resume_experience.isEmpty then
      [{ category := "Опыт работы", items := ["Опыт работы не описан в резюме"],
         description := "В резюме отсутствует описание опыта работы" }]
    else []
  let job_education := lowerL job_data.education_required.data
  let resume_education := lowerL resume_data.education.data
  let education_gaps : List Gap :=
    if ¬ job_education.isEmpty ∧ resume_education.isEmpty then
      [{ category := "Образование", items := ["Информация об образовании не указана"],
         description := "В резюме отсутствует информация об образовании" }]
    else []
  skills_gaps ++ experience_gaps ++ education_gaps
/-- The `strong_text.get(cat, cat)` lookup (analyzer.py:434-441). -/
def strongText (cat : String) : String :=
  if cat = "required_skills" then "обязательные навыки"
  else if cat = "preferred_skills" then "желательные навыки"
  else if cat = "experience" then "опыт работы"
  else if cat = "education" then "образование"
  else if cat = "soft_skills" then "soft skills"
  else cat
/-- `_generate_motivational_recommendations` (analyzer.py:407-474). -/
def generate_motivational_recommendations (compatibility : ℚ) (breakdown : Breakdown)
    (gaps : List Gap) (resume_data : ResumeData) (job_data : JobData) : List String :=
  let _ := resume_data
  let _ := job_data
  let opening :=
    if 70 ≤ compatibility then
      ["🎯 Твой текущий уровень: " ++ formatF0 compatibility ++ "% - отличная база!"]
    else if 50 ≤ compatibility then
      ["🎯 Твой текущий уровень: " ++ formatF0 compatibility ++ "% - хорошая база, есть куда расти!"]
    else
      ["🎯 Твой текущий уровень: " ++ formatF0 compatibility ++ "% - начнем с основ!"]
  let weak_categories := (breakdown.items.filter (fun p => p.2.percentage < 50)).map (fun p => p.1)
  let strong_categories :=
    (breakdown.items.filter (fun p => ¬ p.2.percentage < 50 ∧ 80 ≤ p.2.percentage)).map (fun p => p.1)
  let strengths :=
    if ¬ strong_categories.isEmpty then
      ["💪 Твои сильные стороны: " ++
        String.intercalate ", " ((strong_categories.take 2).map strongText)]
    else []
  let weaknesses :=
    if ¬ weak_categories.isEmpty ∨ ¬ gaps.isEmpty then
      ["🚀 Что подкачать:"]
      ++ ((gaps.filter (fun g => g.category = "Навыки" ∧ ¬ g.items.isEmpty)).map (fun g =>
            "• " ++ String.intercalate ", " (g.items.take 3) ++ " - ключевые навыки для позиции"))
      ++ (if "required_skills" ∈ weak_categories then
            ["• Обязательные навыки - критично для позиции"] else [])
      ++ (if "experience" ∈ weak_categories then
            ["• Опыт работы - добавь больше деталей о проектах"] else [])
    else []
  let action_gaps := (gaps.take 3).filter (fun g => g.category = "Навыки" ∧ ¬ g.items.isEmpty)
  let plan_items := action_gaps.enum.map (fun p =>
    toString (p.1 + 1) ++ ". Изучи " ++ p.2.items.headD "" ++ " - пройди курс или сделай pet-project")
  let plan_tail :=
    if action_gaps.isEmpty then
      ["1. Продолжай развивать текущие навыки", "2. Обнови резюме с новыми достижениями"]
    else []
  opening ++ strengths ++ weaknesses ++ (["📚 План действий:"] ++ plan_items ++ plan_tail)
/-- The analysis result dictionary (analyzer.py:50-59).  The
`motivational_message` string is presentational and not referenced by any
claim; it is not modelled. -/
structure AnalysisResult where
  compatibility_percentage : ℚ
  breakdown : Breakdown
  skills_table : List SkillRow
  gaps : List Gap
  recommendations : List String
  resume_skills : List String
  job_skills : List String
  deriving DecidableEq
/-- `CompatibilityAnalyzer.analyze` (analyzer.py:16-59). -/
def analyze (resume_data : ResumeData) (job_data : JobData) : AnalysisResult :=
  let breakdown := calculate_detailed_breakdown resume_data job_data
  let compatibility := compatibilityRaw breakdown
  let skills_table := create_skills_table resume_data job_data
  let gaps := find_gaps resume_data job_data
  let recommendations :=
    generate_motivational_recommendations compatibility breakdown gaps resume_data job_data
  { compatibility_percentage := pyRound2 compatibility,
    breakdown := breakdown,
    skills_table := skills_table,
    gaps := gaps,
    recommendations := recommendations,
    resume_skills := resume_data.skills,
    job_skills := job_data.skills }
/-! ### The plain (non-detailed) scoring path (`analyzer.py:476-593,644-710`) -/

/-- `_compare_skills` (analyzer.py:513-531): skill-list overlap ratio. -/
def compare_skills (resume_skills job_skills : List String) : ℚ :=
  if job_skills.isEmpty then 1
  else if resume_skills.isEmpty then 0
  else
    let resume_skills_lower := resume_skills.map lowerS
    let job_skills_lower := job_skills.map lowerS
    let matching_count := (job_skills_lower.dedup.filter (fun s => s ∈ resume_skills_lower)).length
    let match_ratio := qdiv (matching_count : ℚ) (job_skills_lower.length : ℚ)
    pyMin match_ratio 1
/-- `_compare_texts` (analyzer.py:533-553).  The TF-IDF vectorization and
cosine similarity (scikit-learn, floating point) are modelled as an
oracle returning either a similarity value or an arbitrary exception;
the surrounding control flow — the empty-text guard, the 5000-character
truncation and the fall back to `_simple_text_comparison` on any
exception — is the code under verification. -/
def compare_texts (tfidf : String → String → Except Unit ℚ) (resume_text job_text : String) :
    ℚ :=
  if resume_text.isEmpty ∨ job_text.isEmpty then 0
  else
    let r := String.mk (resume_text.data.take 5000)
    let j := String.mk (job_text.data.take 5000)
    match tfidf r j with
    | Except.ok v => v
    | Except.error _ => simple_text_comparison r j
/-- `_compare_experience` (analyzer.py:566-571). -/
def compare_experience (resume_experience job_requirements : String) : ℚ :=
  if job_requirements.isEmpty then 1
  else simple_text_comparison resume_experience job_requirements
/-- Education keyword list of `_compare_education` (analyzer.py:585) —
note: two keywords fewer than the detailed variant. -/
def education_keywords_plain : List String :=
  ["образование", "education", "университет", "институт", "вуз"]
/-- `_compare_education` (analyzer.py:573-593). -/
def compare_education (resume_education job_education : String) : ℚ :=
  if job_education.isEmpty then 1
  else if resume_education.isEmpty then 0
  else
    let resume_lower := lowerL resume_education.data
    let job_lower := lowerL job_education.data
    let resume_has_education :=
      education_keywords_plain.any (fun kw => containsSub kw.data resume_lower)
    let job_requires_education :=
      education_keywords_plain.any (fun kw => containsSub kw.data job_lower)
    if ¬ job_requires_education then 1
    else if resume_has_education then 1 else Rat.divInt 1 2
/-- `_calculate_compatibility` (analyzer.py:476-511).  The float weights
0.4/0.3/0.2/0.1 are modelled exactly. -/
def calculate_compatibility (tfidf : String → String → Except Unit ℚ)
    (resume_data : ResumeData) (job_data : JobData) : ℚ :=
  let skills_score := compare_skills resume_data.skills job_data.skills
  let text_similarity := compare_texts tfidf resume_data.text job_data.text
  let experience_score := compare_experience resume_data.experience job_data.requirements
  let education_score := compare_education resume_data.education job_data.education_required
  let total_score :=
    qadd (qadd (qadd (qmul skills_score (Rat.divInt 4 10))
      (qmul text_similarity (Rat.divInt 3 10)))
      (qmul experience_score (Rat.divInt 2 10)))
      (qmul education_score (Rat.divInt 1 10))
  qmul total_score 100
/-- The per-gap recommendation sentences of `_generate_recommendations`
(analyzer.py:648-669). -/
def recommendation_of_gap (g : Gap) : List String :=
  if g.category = "Навыки" then
    let missing_skills := g.items.take 5
    if ¬ missing_skills.isEmpty then
      let base := String.intercalate ", " (missing_skills.take 3)
      let skills_text :=
        if 3 < missing_skills.length then
          base ++ " и еще " ++ toString (missing_skills.length - 3)
        else base
      ["**Критично:** Изучите недостающие технологии: " ++ skills_text ++ ". " ++
        "Рекомендуем начать с онлайн-курсов или документации."]
    else []
  else if g.category = "Опыт работы" then
    ["**Важно:** Добавьте подробное описание вашего опыта работы. " ++
      "Укажите конкретные проекты, достижения и используемые технологии. " ++
      "Используйте формат: \x27Что делал → Какой результат получил\x27."]
  else if g.category = "Образование" then
    ["**Желательно:** Укажите информацию об образовании в резюме. " ++
      "Включите название учебного заведения, специальность и год окончания."]
  else []
/-- The ATS keyword-alignment tip appended by `_generate_recommendations`
(analyzer.py:705-708). -/
def ats_tip : String :=
  "**Совет:** Переформулируйте описание опыта работы, используя ключевые слова из вакансии. " ++
  "Это поможет пройти автоматический отбор (ATS)."
/-- `_generate_recommendations` (analyzer.py:644-710).  This is the
gap-based generator carrying the ATS tip; `analyze` does not call it
(it calls `_generate_motivational_recommendations` instead). -/
def generate_recommendations (tfidf : String → String → Except Unit ℚ) (gaps : List Gap)
    (resume_data : ResumeData) (job_data : JobData) : List String :=
  let gap_recommendations := gaps.flatMap recommendation_of_gap
  let compatibility := calculate_compatibility tfidf resume_data job_data
  let resume_skills := resume_data.skills
  let job_skills := job_data.skills
  let overall : List String :=
    if compatibility < 50 then
      if ¬ resume_skills.isEmpty ∧ ¬ job_skills.isEmpty then
        let missing_count :=
          ((job_skills.map lowerS).dedup.filter (fun s => ¬ s ∈ resume_skills.map lowerS)).length
        ["**Общая рекомендация:** Совместимость низкая (" ++ formatF0 compatibility ++ "%). " ++
          "Не хватает " ++ toString missing_count ++ " ключевых навыков. " ++
          "Рекомендуем переработать резюме, добавив недостающие технологии и опыт."]
      else
        ["**Общая рекомендация:** Совместимость низкая (" ++ formatF0 compatibility ++ "%). " ++
          "Рекомендуем детально изучить требования вакансии и адаптировать резюме."]
    else if compatibility < 70 then
      ["**Общая рекомендация:** Совместимость средняя (" ++ formatF0 compatibility ++ "%). " ++
        "Есть потенциал для улучшения. Сфокусируйтесь на развитии недостающих навыков " ++
        "и улучшении формулировок в резюме."]
    else
      ["**Отлично!** Ваше резюме хорошо соответствует вакансии (" ++ formatF0 compatibility ++
        "%). Рекомендуем только небольшие доработки для идеального соответствия."]
  let ats : List String :=
    if ¬ resume_skills.isEmpty ∧ ¬ job_skills.isEmpty then
      let matching_ratio :=
        qdiv ((((job_skills.map lowerS).dedup.filter
          (fun s => s ∈ resume_skills.map lowerS)).length : ℚ)) ((job_skills.length : ℚ))
      if matching_ratio < Rat.divInt 1 2 then [ats_tip] else []
    else []
  gap_recommendations ++ overall ++ ats

/-! ### `ResumeParser._extract_skills` (resume_parser.py:76-281) -/

/-- Python's `\w` (regex word character) for the character ranges occurring
in this repository: ASCII alphanumerics, underscore, and Cyrillic letters. -/
def isWordChar (c : Char) : Bool :=
  ('a' ≤ c ∧ c ≤ 'z') ∨ ('A' ≤ c ∧ c ≤ 'Z') ∨ ('0' ≤ c ∧ c ≤ '9') ∨ c = '_' ∨
  ('А' ≤ c ∧ c ≤ 'я') ∨ c = 'Ё' ∨ c = 'ё'

/-- Word-character test on an optional character (`none` = out of range,
never a word character). -/
def charIsWord (o : Option Char) : Bool :=
  match o with
  | some c => isWordChar c
  | none => false

/-- Python's `\b` at text position `p`: word-ness changes between the
character before `p` and the character at `p`. -/
def boundaryAt (t : List Char) (p : ℕ) : Bool :=
  charIsWord (if p = 0 then none else t.get? (p - 1)) != charIsWord (t.get? p)

/-- `re.escape`d literal pattern `\b pat \b` matches at position `i`. -/
def matchWBAt (pat t : List Char) (i : ℕ) : Bool :=
  pat.isPrefixOf (t.drop i) ∧ boundaryAt t i ∧ boundaryAt t (i + pat.length)

/-- Fuel-driven scan for `re.finditer(r'\b' + re.escape(pat) + r'\b', t)`:
leftmost, non-overlapping match start positions. -/
def finditerWBAux (pat t : List Char) : ℕ → ℕ → List ℕ
  | 0, _ => []
  | fuel + 1, i =>
    if t.length < i then []
    else if matchWBAt pat t i then i :: finditerWBAux pat t fuel (i + pyMaxN 1 pat.length)
    else finditerWBAux pat t fuel (i + 1)

/-- `re.finditer(r'\b' + re.escape(pat) + r'\b', t)` match start positions. -/
def finditerWB (pat t : List Char) : List ℕ :=
  finditerWBAux pat t (t.length + 1) 0

/-- `re.search(r'\b' + re.escape(pat) + r'\b', t)` succeeds. -/
def searchWB (pat t : List Char) : Bool :=
  (List.range (t.length + 1)).any (fun i => matchWBAt pat t i)

/-- Python `t.replace(pat, '')`: remove every occurrence, left to right,
non-overlapping (`pat` is never empty in the embedded code; the emptiness
guard only ensures termination fuel suffices). -/
def removeAllAux (pat : List Char) : ℕ → List Char → List Char
  | 0, rest => rest
  | fuel + 1, rest =>
    match rest with
    | [] => []
    | c :: cs =>
      if pat.isPrefixOf rest ∧ ¬ pat.isEmpty then removeAllAux pat fuel (rest.drop pat.length)
      else c :: removeAllAux pat fuel cs

/-- Python `t.replace(pat, '')`. -/
def removeAll (pat t : List Char) : List Char := removeAllAux pat t.length t

/-- The skill vocabulary `skills_dict` (resume_parser.py:79-165), in source
order. -/
def skills_dict : List (String × List String) :=
  [("Python", ["python", "python3", "python 3", "py", "django", "flask", "fastapi"]),
   ("JavaScript", ["javascript", "js", "ecmascript", "node.js", "nodejs", "node"]),
   ("TypeScript", ["typescript", "ts"]),
   ("Java", ["java", "spring", "spring boot"]),
   ("C++", ["c++", "cpp", "c plus plus"]),
   ("C#", ["c#", "csharp", "dotnet", ".net", "asp.net"]),
   ("Go", ["go", "golang"]),
   ("Rust", ["rust"]),
   ("PHP", ["php"]),
   ("Ruby", ["ruby", "rails", "ruby on rails"]),
   ("Swift", ["swift"]),
   ("Kotlin", ["kotlin"]),
   ("Scala", ["scala"]),
   ("R", ["r language", "r programming"]),
   ("React", ["react", "react.js", "reactjs"]),
   ("Vue", ["vue", "vue.js", "vuejs"]),
   ("Angular", ["angular", "angularjs"]),
   ("Node.js", ["node.js", "nodejs", "node", "express"]),
   ("Django", ["django"]),
   ("Flask", ["flask"]),
   ("FastAPI", ["fastapi", "fast api"]),
   ("Spring", ["spring", "spring boot", "spring framework"]),
   ("Laravel", ["laravel"]),
   ("Symfony", ["symfony"]),
   ("SQL", ["sql", "mysql", "postgresql", "oracle", "mssql"]),
   ("PostgreSQL", ["postgresql", "postgres", "pg"]),
   ("MySQL", ["mysql", "mariadb"]),
   ("MongoDB", ["mongodb", "mongo"]),
   ("Redis", ["redis"]),
   ("Elasticsearch", ["elasticsearch", "elastic"]),
   ("Cassandra", ["cassandra"]),
   ("DynamoDB", ["dynamodb", "dynamo db"]),
   ("AWS", ["aws", "amazon web services", "amazon aws"]),
   ("Azure", ["azure", "microsoft azure"]),
   ("GCP", ["gcp", "google cloud", "google cloud platform"]),
   ("Docker", ["docker", "dockerfile", "docker compose"]),
   ("Kubernetes", ["kubernetes", "k8s"]),
   ("Terraform", ["terraform"]),
   ("Ansible", ["ansible"]),
   ("Git", ["git", "github", "gitlab", "bitbucket"]),
   ("Linux", ["linux", "unix", "bash", "shell"]),
   ("CI/CD", ["ci/cd", "jenkins", "gitlab ci", "github actions", "circleci"]),
   ("Jira", ["jira"]),
   ("Confluence", ["confluence"]),
   ("Agile", ["agile", "scrum", "kanban"]),
   ("Scrum", ["scrum", "scrum master"]),
   ("DevOps", ["devops", "dev ops"]),
   ("Machine Learning", ["machine learning", "ml", "deep learning"]),
   ("Data Science", ["data science", "data scientist"]),
   ("TensorFlow", ["tensorflow", "tf"]),
   ("PyTorch", ["pytorch", "torch"]),
   ("Pandas", ["pandas", "pd"]),
   ("NumPy", ["numpy", "np"]),
   ("Scikit-learn", ["scikit-learn", "sklearn", "scikit learn"]),
   ("HTML", ["html", "html5"]),
   ("CSS", ["css", "css3", "sass", "scss", "less"]),
   ("Bootstrap", ["bootstrap"]),
   ("Tailwind CSS", ["tailwind", "tailwind css"]),
   ("Webpack", ["webpack"]),
   ("Vite", ["vite"]),
   ("REST API", ["rest", "rest api", "restful", "restful api"]),
   ("GraphQL", ["graphql", "graph ql"]),
   ("gRPC", ["grpc", "g rpc"]),
   ("Microservices", ["microservices", "micro services"]),
   ("RabbitMQ", ["rabbitmq", "rabbit mq"]),
   ("Kafka", ["kafka", "apache kafka"])]

/-- `skill_context_keywords` (resume_parser.py:172-187). -/
def skill_context_keywords : List String :=
  ["работал", "работала", "работаю", "работает",
   "опыт", "опытом", "опыте",
   "знаю", "знает", "знание",
   "владею", "владеет", "владение",
   "использую", "использует", "использование",
   "применяю", "применяет", "применение",
   "умею", "умеет", "умение",
   "навык", "навыки", "навыками",
   "технология", "технологии", "технологиями",
   "инструмент", "инструменты", "инструментами",
   "язык", "языки", "языками",
   "фреймворк", "фреймворки", "фреймворками",
   "библиотека", "библиотеки", "библиотеками",
   "с", "в", "на", "через", "посредством"]

/-- `exclude_keywords` (resume_parser.py:190-194). -/
def exclude_keywords : List String :=
  ["не знаю", "не умею", "не владею", "не использую",
   "не работал", "не работала", "не работаю",
   "без опыта", "нет опыта", "не имею опыта"]

/-- The `api_context` list of the REST-API special case (resume_parser.py:235). -/
def api_context_keywords : List String :=
  ["api", "интерфейс", "endpoint", "запрос", "response", "http", "https"]

/-- The skills-section markers (resume_parser.py:243). -/
def skills_section_keywords : List String :=
  ["навык", "технологи", "инструмент", "язык", "фреймворк", "библиотека"]

/-- The ±50-character context window around a match spanning `[s, e)`
(resume_parser.py:215-218); natural subtraction clamps the left edge at 0
and `take` clamps the right edge at the text length. -/
def contextOf (t : List Char) (s e : ℕ) : List Char :=
  (t.drop (s - 50)).take (e + 50 - (s - 50))

/-- The per-occurrence validity checks of the first extraction pass
(resume_parser.py:211-251): exclusion words, the Git/GitHub suppression
rule, the REST-API context rule, and the skills-section / context-word
requirement. -/
def matchValid (skill_name : String) (t : List Char) (s e : ℕ) : Bool :=
  let context := contextOf t s e
  let has_exclude := exclude_keywords.any (fun exc => containsSub exc.data context)
  if has_exclude then false
  else if skill_name = "Git" ∧
      (containsSub "github".data context ∨ containsSub "gitlab".data context ∨
        containsSub "bitbucket".data context) ∧
      ¬ searchWB "git".data
        (removeAll "bitbucket".data (removeAll "gitlab".data (removeAll "github".data context)))
    then false
  else if skill_name = "REST API" ∧
      ¬ api_context_keywords.any (fun k => containsSub k.data context) ∧
      ¬ skill_context_keywords.any (fun k => containsSub k.data context)
    then false
  else
    let is_in_skills_section :=
      skills_section_keywords.any (fun k => containsSub k.data context)
    let has_context := skill_context_keywords.any (fun k => containsSub k.data context)
    is_in_skills_section ∨ has_context

/-- One synonym of the first pass: some boundary occurrence in the lowered
text passes all context checks (resume_parser.py:198-251). -/
def synonymValid (skill_name : String) (text_lower : List Char) (syn : String) : Bool :=
  let pat := lowerL syn.data
  (finditerWB pat text_lower).any (fun s => matchValid skill_name text_lower s (s + pat.length))

/-- The first extraction pass over the vocabulary (resume_parser.py:197-256):
a skill is recorded once when any of its synonyms has a valid occurrence. -/
def extractPass1 (text_lower : List Char) : List String :=
  skills_dict.foldl (fun acc p =>
    if p.2.any (fun syn => synonymValid p.1 text_lower syn) ∧ ¬ p.1 ∈ acc then acc ++ [p.1]
    else acc) []

/-- Case-insensitive literal prefix match (`re.IGNORECASE` on a literal
alternative). -/
def ciIsPrefix : List Char → List Char → Bool
  | [], _ => true
  | _ :: _, [] => false
  | p :: ps, c :: cs => pyLower p = pyLower c ∧ ciIsPrefix ps cs

/-- Length of the maximal run of characters satisfying `p` (the
maximal-munch step of a greedy character-class quantifier). -/
def countWhile (p : Char → Bool) : List Char → ℕ
  | [] => 0
  | c :: cs => if p c then countWhile p cs + 1 else 0

/-- `[A-Z]` under `re.IGNORECASE`: ASCII letters of either case (CPython
additionally folds a handful of exotic Unicode letters that cannot occur
in these texts). -/
def isAsciiAlpha (c : Char) : Bool := ('A' ≤ c ∧ c ≤ 'Z') ∨ ('a' ≤ c ∧ c ≤ 'z')

/-- The class `[\s:]` of the second regex pattern. -/
def isSpaceColon (c : Char) : Bool := pyIsSpace c ∨ c = ':'

/-- The capture class `[a-zA-Z\s,]` of the second regex pattern. -/
def isCapClassP2 (c : Char) : Bool := isAsciiAlpha c ∨ pyIsSpace c ∨ c = ','

/-- The capture class `[a-zA-Z\s\+#\.]` of the first regex pattern. -/
def isCapClassP1 (c : Char) : Bool :=
  isAsciiAlpha c ∨ pyIsSpace c ∨ c = '+' ∨ c = '#' ∨ c = '.'

/-- The class `[\s\w,]` of the first regex pattern. -/
def isClassAP1 (c : Char) : Bool := pyIsSpace c ∨ isWordChar c ∨ c = ','

/-- Marker alternation of the second pattern (resume_parser.py:262), in
pattern order. -/
def markersP2 : List String :=
  ["технологии", "технология", "навыки", "навык", "инструменты", "инструмент"]

/-- Marker alternation of the first pattern (resume_parser.py:261), in
pattern order. -/
def markersP1 : List String :=
  ["работал", "работала", "работаю", "опыт", "знаю", "владею", "использую", "применяю", "умею"]

/-- Anchored match of pattern 2,
`(?:markers)[\s:]+([A-Z][a-zA-Z\s,]+)` with `re.IGNORECASE`, at position
`i`; returns the capture group and the match end.  Greedy `[\s:]+` never
needs backtracking because no `[\s:]` character is an ASCII letter, and
the trailing `+` is final, so maximal munch is exact. -/
def matchP2At (t : List Char) (i : ℕ) : Option (List Char × ℕ) :=
  markersP2.findSome? (fun m =>
    if ciIsPrefix m.data (t.drop i) then
      let j := i + m.data.length
      let k := countWhile isSpaceColon (t.drop j)
      if k = 0 then none
      else
        match t.drop (j + k) with
        | [] => none
        | c :: rest =>
          if isAsciiAlpha c then
            let r := countWhile isCapClassP2 rest
            if r = 0 then none
            else some ((t.drop (j + k)).take (1 + r), j + k + 1 + r)
          else none
    else none)

/-- Descending lengths `[n, n-1, …, 1]`: the order in which a greedy `+`
quantifier offers split points to the rest of the pattern. -/
def lengthsDesc (n : ℕ) : List ℕ := (List.range n).map (fun k => n - k)

/-- Anchored match of pattern 1,
`(?:markers)[\s\w,]+(?:с|в|на)\s+([A-Z][a-zA-Z\s\+#\.]+)` with
`re.IGNORECASE`, at position `i`.  The greedy `[\s\w,]+` is offered
longest-first with full backtracking against the `(?:с|в|на)`
alternation; `\s+` and the trailing capture `+` use maximal munch, exact
because the follow-up classes are disjoint from theirs. -/
def matchP1At (t : List Char) (i : ℕ) : Option (List Char × ℕ) :=
  markersP1.findSome? (fun m =>
    if ciIsPrefix m.data (t.drop i) then
      let j := i + m.data.length
      let maxA := countWhile isClassAP1 (t.drop j)
      (lengthsDesc maxA).findSome? (fun l =>
        (["с", "в", "на"]).findSome? (fun mid =>
          if ciIsPrefix mid.data (t.drop (j + l)) then
            let j2 := j + l + mid.data.length
            let s := countWhile pyIsSpace (t.drop j2)
            if s = 0 then none
            else
              match t.drop (j2 + s) with
              | [] => none
              | c :: rest =>
                if isAsciiAlpha c then
                  let r := countWhile isCapClassP1 rest
                  if r = 0 then none
                  else some ((t.drop (j2 + s)).take (1 + r), j2 + s + 1 + r)
                else none
          else none))
    else none)

/-- `re.findall` scan driver: try the anchored matcher at each position,
emit the capture and resume after the match, else advance one character. -/
def findallAux (matchFn : ℕ → Option (List Char × ℕ)) (tlen : ℕ) :
    ℕ → ℕ → List (List Char)
  | 0, _ => []
  | fuel + 1, i =>
    if tlen < i then []
    else
      match matchFn i with
      | some (cap, e) => cap :: findallAux matchFn tlen fuel (pyMaxN e (i + 1))
      | none => findallAux matchFn tlen fuel (i + 1)

/-- `re.findall` of pattern 1 over the original-case text. -/
def reFindallP1 (t : List Char) : List (List Char) :=
  findallAux (matchP1At t) t.length (t.length + 1) 0

/-- `re.findall` of pattern 2 over the original-case text. -/
def reFindallP2 (t : List Char) : List (List Char) :=
  findallAux (matchP2At t) t.length (t.length + 1) 0

/-- Python `str.strip()`. -/
def pyStrip (s : List Char) : List Char :=
  ((s.dropWhile pyIsSpace).reverse.dropWhile pyIsSpace).reverse

/-- Python `str.rstrip(',')`. -/
def rstripCommas (s : List Char) : List Char :=
  (s.reverse.dropWhile (fun c => c = ',')).reverse

/-- Python `s.split(',')[0]`. -/
def takeBeforeComma (s : List Char) : List Char := s.takeWhile (fun c => ¬ c = ',')

/-- `match.strip().rstrip(',').split(',')[0].strip()` (resume_parser.py:269). -/
def cleanedOf (m : List Char) : List Char :=
  pyStrip (takeBeforeComma (rstripCommas (pyStrip m)))

/-- Resolution of one second-pass capture against the vocabulary
(resume_parser.py:268-279): the first skill any of whose synonyms equals
or occurs inside the cleaned capture is recorded once. -/
def pass2Step (acc : List String) (m : List Char) : List String :=
  let cleaned := cleanedOf m
  if 2 < cleaned.length ∧ cleaned.length < 50 then
    let cleaned_lower := lowerL cleaned
    match skills_dict.find? (fun p => p.2.any (fun syn =>
        lowerL syn.data = cleaned_lower ∨ containsSub (lowerL syn.data) cleaned_lower)) with
    | some p => if ¬ p.1 ∈ acc then acc ++ [p.1] else acc
    | none => acc
  else acc

/-- `ResumeParser._extract_skills` (resume_parser.py:76-281): the
vocabulary pass over the lowered text followed by the two regex pattern
passes over the original text. -/
def extract_skills (text : String) : List String :=
  let text_lower := lowerL text.data
  let found1 := extractPass1 text_lower
  (reFindallP1 text.data ++ reFindallP2 text.data).foldl pass2Step found1

/-! ### Specification-side definitions and concrete scenario inputs -/

/-- The overall-percentage formula exactly as the specification words it:
sum of `score` over the categories whose `notSpecified` flag is false,
divided by the sum of `max` over those same categories, times 100, and 0
when every category is excluded.  Stated with ordinary field operations;
compared against the implementation in the C2 theorem. -/
def specCompatibilityPercentage (b : Breakdown) : ℚ :=
  let included := (b.items.map (fun p => p.2)).filter (fun e => e.not_specified = false)
  if included = [] then 0
  else (included.map (fun e => e.score)).sum / (included.map (fun e => e.max)).sum * 100

/-- C1 scenario resume: skills `["Python", "SQL"]`, empty texts. -/
def c1Resume : ResumeData where
  text := ""
  skills := ["Python", "SQL"]
  experience := ""
  education := ""

/-- C1 scenario job: five skills, empty requirements/education/text. -/
def c1Job : JobData where
  text := ""
  skills := ["Python", "SQL", "Docker", "Kubernetes", "AWS"]
  requirements := ""
  education_required := ""

/-- C8 scenario resume: one skill, no other data. -/
def c8Resume : ResumeData where
  text := ""
  skills := ["python"]
  experience := ""
  education := ""

/-- C8 scenario job: skill list with repeated entries, giving a
case-insensitive match ratio of 1/3 while leaving no missing skills. -/
def c8Job : JobData where
  text := ""
  skills := ["Python", "python", "python"]
  requirements := ""
  education_required := ""

/-- A TF-IDF oracle that always fails, exercising the fallback path. -/
def c9FailingOracle : String → String → Except Unit ℚ := fun _ _ => Except.error ()

/-- C6 witness resume. -/
def c6Resume : ResumeData where
  text := "Знаю Python"
  skills := ["python"]
  experience := ""
  education := ""

/-- C6 witness job. -/
def c6Job : JobData where
  text := ""
  skills := ["Python", "Docker", "Rust"]
  requirements := ""
  education_required := ""

/-- The first row of the C6 witness skills table. -/
def c6Row : SkillRow := skillRow (c6Resume.skills.map lowerS) c6Resume.text "Python"

/-- The C7 failing input: the job text mentions GitHub (no standalone
`git` anywhere). -/
def c7Text : String := "Навыки: Github"
/-- A TF-IDF oracle used to instantiate the C8 witness. -/
def c8Oracle : String → String → Except Unit ℚ := fun _ _ => Except.error ()

theorem qneg_eq (a : ℚ) : qneg a = -a := by
  rw [qneg, Rat.divInt_eq_div]
  push_cast
  rw [neg_div, Rat.num_div_den]
theorem qadd_eq (a b : ℚ) : qadd a b = a + b := by
  have ha : ((a.den : ℚ)) ≠ 0 := by exact_mod_cast a.den_nz
  have hb : ((b.den : ℚ)) ≠ 0 := by exact_mod_cast b.den_nz
  rw [qadd, Rat.divInt_eq_div]
  push_cast
  conv_rhs => rw [← Rat.num_div_den a, ← Rat.num_div_den b]
  rw [div_add_div _ _ ha hb]
  ring_nf
theorem qsub_eq (a b : ℚ) : qsub a b = a - b := by
  rw [qsub, qadd_eq, qneg_eq, sub_eq_add_neg]
theorem qmul_eq (a b : ℚ) : qmul a b = a * b := by
  rw [qmul, Rat.divInt_eq_div]
  push_cast
  conv_rhs => rw [← Rat.num_div_den a, ← Rat.num_div_den b]
  rw [div_mul_div_comm]
theorem qdiv_eq (a b : ℚ) : qdiv a b = a / b := by
  rw [qdiv, Rat.divInt_eq_div]
  by_cases hb0 : b = 0
  · subst hb0
    simp [Rat.num_zero]
  · have ha : ((a.den : ℚ)) ≠ 0 := by exact_mod_cast a.den_nz
    have hbd : ((b.den : ℚ)) ≠ 0 := by exact_mod_cast b.den_nz
    have hbn : ((b.num : ℚ)) ≠ 0 := by exact_mod_cast Rat.num_ne_zero.mpr hb0
    have hA : (a.num : ℚ) = a * a.den := (div_eq_iff ha).mp (Rat.num_div_den a)
    have hB : (b.num : ℚ) = b * b.den := (div_eq_iff hbd).mp (Rat.num_div_den b)
    push_cast
    rw [div_eq_div_iff (mul_ne_zero hbn ha) hb0, hA, hB]
    ring
/-! ### Python `round` (banker's rounding) and list sums -/

/-- `Rat.floor` agrees with Mathlib's `⌊·⌋` (and is kernel-reducible). -/
theorem ratFloor_eq (q : ℚ) : Rat.floor q = ⌊q⌋ :=
  (Rat.floor_def' q).trans Rat.floor_def.symm
theorem pyRoundInt_sandwich (q : ℚ) : (⌊q⌋ ≤ pyRoundInt q) ∧ pyRoundInt q ≤ ⌈q⌉ := by
  rw [pyRoundInt, qsub_eq, qadd_eq, Rat.divInt_eq_div, ratFloor_eq]
  push_cast
  by_cases h : q - (⌊q⌋ : ℚ) = 1 / 2
  · rw [if_pos h]
    have hlt : (⌊q⌋ : ℚ) < q := by
      have : (0 : ℚ) < 1 / 2 := by norm_num
      linarith [h]
    have hceil : ⌊q⌋ + 1 ≤ ⌈q⌉ := by
      have h1 : (⌊q⌋ : ℚ) < (⌈q⌉ : ℚ) := lt_of_lt_of_le hlt (Int.le_ceil q)
      exact_mod_cast Int.add_one_le_iff.mpr (by exact_mod_cast h1)
    constructor
    · split <;> omega
    · split <;> omega
  · rw [if_neg h, ratFloor_eq]
    constructor
    · exact Int.floor_le_floor (by linarith)
    · have : ⌊q + 1 / 2⌋ < ⌈q⌉ + 1 := by
        rw [Int.floor_lt]
        push_cast
        linarith [Int.le_ceil q]
      omega
theorem pyRoundInt_nonneg {q : ℚ} (h : 0 ≤ q) : 0 ≤ pyRoundInt q :=
  le_trans (by exact_mod_cast Int.le_floor.mpr (by exact_mod_cast h)) (pyRoundInt_sandwich q).1
theorem pyRoundInt_le {q : ℚ} {c : ℤ} (h : q ≤ (c : ℚ)) : pyRoundInt q ≤ c :=
  le_trans (pyRoundInt_sandwich q).2 (by
    have := Int.ceil_le_ceil h
    simpa using this)
theorem pyRound1_nonneg {q : ℚ} (h : 0 ≤ q) : 0 ≤ pyRound1 q := by
  rw [pyRound1, qdiv_eq]
  have h10 : (0 : ℚ) ≤ 10 := by norm_num
  have : (0 : ℚ) ≤ ((pyRoundInt (qmul q 10) : ℤ) : ℚ) := by
    exact_mod_cast pyRoundInt_nonneg (by rw [qmul_eq]; positivity)
  positivity
theorem pyRound1_le {q : ℚ} {c : ℤ} (h : q ≤ (c : ℚ)) : pyRound1 q ≤ (c : ℚ) := by
  rw [pyRound1, qdiv_eq]
  rw [div_le_iff (by norm_num : (0:ℚ) < 10)]
  have hi : pyRoundInt (qmul q 10) ≤ 10 * c := by
    apply pyRoundInt_le
    rw [qmul_eq]
    push_cast
    linarith
  calc ((pyRoundInt (qmul q 10) : ℤ) : ℚ) ≤ ((10 * c : ℤ) : ℚ) := by exact_mod_cast hi
    _ = (c : ℚ) * 10 := by push_cast; ring
theorem pyRound2_nonneg {q : ℚ} (h : 0 ≤ q) : 0 ≤ pyRound2 q := by
  rw [pyRound2, qdiv_eq]
  have : (0 : ℚ) ≤ ((pyRoundInt (qmul q 100) : ℤ) : ℚ) := by
    exact_mod_cast pyRoundInt_nonneg (by rw [qmul_eq]; positivity)
  positivity
theorem pyRound2_le {q : ℚ} {c : ℤ} (h : q ≤ (c : ℚ)) : pyRound2 q ≤ (c : ℚ) := by
  rw [pyRound2, qdiv_eq]
  rw [div_le_iff (by norm_num : (0:ℚ) < 100)]
  have hi : pyRoundInt (qmul q 100) ≤ 100 * c := by
    apply pyRoundInt_le
    rw [qmul_eq]
    push_cast
    linarith
  calc ((pyRoundInt (qmul q 100) : ℤ) : ℚ) ≤ ((100 * c : ℤ) : ℚ) := by exact_mod_cast hi
    _ = (c : ℚ) * 100 := by push_cast; ring
theorem qsum_eq (l : List ℚ) : qsum l = l.sum := by
  induction l with
  | nil => rfl
  | cons x xs ih => rw [qsum, qadd_eq, ih, List.sum_cons]

/-! ### Helper lemmas -/

theorem filter_snd_comm (l : List (String × BreakdownEntry)) :
    (l.filter (fun p => ¬ p.2.not_specified)).map (fun p => p.2) =
      (l.map (fun p => p.2)).filter (fun e => e.not_specified = false) := by
  induction l with
  | nil => rfl
  | cons x xs ih =>
    cases hx : x.2.not_specified
    · rw [List.filter_cons_of_pos (by simp [hx]), List.map_cons, List.map_cons,
        List.filter_cons_of_pos (by simp [hx]), ih]
    · rw [List.filter_cons_of_neg (by simp [hx]), List.map_cons,
        List.filter_cons_of_neg (by simp [hx]), ih]

theorem validEntries_eq (b : Breakdown) :
    validEntries b = (b.items.map (fun p => p.2)).filter (fun e => e.not_specified = false) :=
  filter_snd_comm b.items

theorem compatibilityRaw_eq_spec (b : Breakdown) :
    compatibilityRaw b = specCompatibilityPercentage b := by
  rw [compatibilityRaw, specCompatibilityPercentage]
  rw [validEntries_eq]
  by_cases hL : (b.items.map (fun p => p.2)).filter (fun e => e.not_specified = false) = []
  · rw [if_neg (fun hc => hc (by rw [hL]; rfl)), if_pos hL]
  · rw [if_pos (fun h => hL (List.isEmpty_iff.mp h)), if_neg hL,
      qmul_eq, qdiv_eq, qsum_eq, qsum_eq]

theorem skillRow_skill (rl : List String) (t s : String) : (skillRow rl t s).skill = s := by
  rw [skillRow]
  split_ifs <;> rfl

theorem compare_skills_detailed_max (a b : List String) (m : ℚ) :
    (compare_skills_detailed a b m).max = m := by
  rw [compare_skills_detailed]
  dsimp only
  repeat' split
  all_goals simp

theorem compare_experience_detailed_max (e r : String) (m : ℚ) :
    (compare_experience_detailed e r m).max = m := by
  rw [compare_experience_detailed]
  dsimp only
  repeat' split
  all_goals simp

theorem compare_education_detailed_max (e r : String) (m : ℚ) :
    (compare_education_detailed e r m).max = m := by
  rw [compare_education_detailed]
  dsimp only
  repeat' split
  all_goals simp

theorem compare_soft_skills_max (rt jt : String) (m : ℚ) :
    (compare_soft_skills rt jt m).max = m := by
  rw [compare_soft_skills]
  dsimp only
  repeat' split
  all_goals simp

theorem length_filter_mono {α : Type} (l : List α) (p q : α → Bool)
    (h : ∀ x, p x = true → q x = true) :
    (l.filter p).length ≤ (l.filter q).length := by
  induction l with
  | nil => simp
  | cons x xs ih =>
    by_cases hx : p x = true
    · rw [List.filter_cons_of_pos hx, List.filter_cons_of_pos (h x hx)]
      simpa using ih
    · rw [List.filter_cons_of_neg (by simpa using hx)]
      cases hq : q x
      · rw [List.filter_cons_of_neg (by simp [hq])]
        exact ih
      · rw [List.filter_cons_of_pos hq]
        exact le_trans ih (by simp)

theorem simple_text_comparison_bounds (t1 t2 : String) :
    0 ≤ simple_text_comparison t1 t2 ∧ simple_text_comparison t1 t2 ≤ 1 := by
  rw [simple_text_comparison]
  split_ifs with h
  · norm_num
  · rw [qdiv_eq]
    have hpos : (0 : ℚ) < (((pyWords (lowerL t2.data)).dedup.length : ℕ) : ℚ) := by
      have : (pyWords (lowerL t2.data)).dedup ≠ [] := by simpa [List.isEmpty_iff] using h
      have := List.length_pos.mpr this
      exact_mod_cast this
    constructor
    · positivity
    · rw [div_le_one hpos]
      exact_mod_cast List.length_filter_le _ _

theorem compare_skills_detailed_score_bounds (a b : List String) (c : ℤ) (hc : 0 ≤ c) :
    0 ≤ (compare_skills_detailed a b ((c : ℤ) : ℚ)).score ∧
      (compare_skills_detailed a b ((c : ℤ) : ℚ)).score ≤ ((c : ℤ) : ℚ) := by
  have hc' : (0 : ℚ) ≤ ((c : ℤ) : ℚ) := by exact_mod_cast hc
  rw [compare_skills_detailed]
  dsimp only
  split_ifs with h1 h2
  · exact ⟨hc', le_refl _⟩
  · exact ⟨le_refl 0, hc'⟩
  · have hb : b ≠ [] := by simpa [List.isEmpty_iff] using h1
    have hn : (0 : ℚ) < ((b.map lowerS).length : ℚ) := by
      have : 0 < (b.map lowerS).length := by
        rw [List.length_map]
        exact List.length_pos.mpr hb
      exact_mod_cast this
    have hk : (((b.map lowerS).dedup.filter (fun s => s ∈ a.map lowerS)).length : ℚ) ≤
        ((b.map lowerS).length : ℚ) := by
      have hf := List.length_filter_le (fun s => s ∈ a.map lowerS) (b.map lowerS).dedup
      have hd := List.Sublist.length_le (List.dedup_sublist (b.map lowerS))
      exact_mod_cast le_trans hf hd
    have hq : qmul (qdiv (((b.map lowerS).dedup.filter (fun s => s ∈ a.map lowerS)).length : ℚ)
        ((b.map lowerS).length : ℚ)) ((c : ℤ) : ℚ) =
        (((b.map lowerS).dedup.filter (fun s => s ∈ a.map lowerS)).length : ℚ) /
          ((b.map lowerS).length : ℚ) * ((c : ℤ) : ℚ) := by
      rw [qmul_eq, qdiv_eq]
    have hdiv : (((b.map lowerS).dedup.filter (fun s => s ∈ a.map lowerS)).length : ℚ) /
        ((b.map lowerS).length : ℚ) ≤ 1 := by
      rw [div_le_one hn]
      exact hk
    constructor
    · apply pyRound1_nonneg
      rw [hq]
      positivity
    · apply pyRound1_le
      rw [hq]
      calc _ ≤ 1 * ((c : ℤ) : ℚ) := mul_le_mul_of_nonneg_right hdiv hc'
        _ = ((c : ℤ) : ℚ) := one_mul _

theorem compare_experience_detailed_score_bounds (e r : String) (c : ℤ) (hc : 0 ≤ c) :
    0 ≤ (compare_experience_detailed e r ((c : ℤ) : ℚ)).score ∧
      (compare_experience_detailed e r ((c : ℤ) : ℚ)).score ≤ ((c : ℤ) : ℚ) := by
  have hc' : (0 : ℚ) ≤ ((c : ℤ) : ℚ) := by exact_mod_cast hc
  rw [compare_experience_detailed]
  dsimp only
  split_ifs with h1
  · exact ⟨hc', le_refl _⟩
  · obtain ⟨hs0, hs1⟩ := simple_text_comparison_bounds e r
    have hq : qmul (simple_text_comparison e r) ((c : ℤ) : ℚ) =
        simple_text_comparison e r * ((c : ℤ) : ℚ) := qmul_eq _ _
    constructor
    · apply pyRound1_nonneg
      rw [hq]
      positivity
    · apply pyRound1_le
      rw [hq]
      calc _ ≤ 1 * ((c : ℤ) : ℚ) := mul_le_mul_of_nonneg_right hs1 hc'
        _ = ((c : ℤ) : ℚ) := one_mul _

theorem compare_education_detailed_score_bounds (e r : String) (c : ℤ) (hc : 0 ≤ c) :
    0 ≤ (compare_education_detailed e r ((c : ℤ) : ℚ)).score ∧
      (compare_education_detailed e r ((c : ℤ) : ℚ)).score ≤ ((c : ℤ) : ℚ) := by
  have hc' : (0 : ℚ) ≤ ((c : ℤ) : ℚ) := by exact_mod_cast hc
  have hhalf0 : 0 ≤ qmul ((c : ℤ) : ℚ) (Rat.divInt 1 2) := by
    rw [qmul_eq, Rat.divInt_eq_div]
    positivity
  have hhalf1 : qmul ((c : ℤ) : ℚ) (Rat.divInt 1 2) ≤ ((c : ℤ) : ℚ) := by
    rw [qmul_eq, Rat.divInt_eq_div]
    norm_num
    linarith
  rw [compare_education_detailed]
  dsimp only
  split_ifs with h1 h2 h3 h4
  · exact ⟨hc', le_refl _⟩
  · exact ⟨le_refl 0, hc'⟩
  · exact ⟨pyRound1_nonneg hc', pyRound1_le (le_refl _)⟩
  · exact ⟨pyRound1_nonneg hhalf0, pyRound1_le hhalf1⟩
  · exact ⟨pyRound1_nonneg hc', pyRound1_le (le_refl _)⟩

set_option maxHeartbeats 1000000 in
theorem compare_soft_skills_score_bounds (rt jt : String) (c : ℤ) (hc : 0 ≤ c) :
    0 ≤ (compare_soft_skills rt jt ((c : ℤ) : ℚ)).score ∧
      (compare_soft_skills rt jt ((c : ℤ) : ℚ)).score ≤ ((c : ℤ) : ℚ) := by
  have hc' : (0 : ℚ) ≤ ((c : ℤ) : ℚ) := by exact_mod_cast hc
  have hfound : ((soft_skills_keywords.filter (fun p =>
      p.2.any (fun kw => containsSub kw.data (lowerL jt.data)) ∧
      p.2.any (fun kw => containsSub kw.data (lowerL rt.data)))).length : ℚ) ≤
      ((soft_skills_keywords.filter (fun p =>
        p.2.any (fun kw => containsSub kw.data (lowerL jt.data)))).length : ℚ) := by
    have hm := length_filter_mono soft_skills_keywords
      (fun p => decide ((p.2.any (fun kw => containsSub kw.data (lowerL jt.data))) = true ∧
        (p.2.any (fun kw => containsSub kw.data (lowerL rt.data))) = true))
      (fun p => p.2.any (fun kw => containsSub kw.data (lowerL jt.data)))
      (fun x hx => by
        simp only [decide_eq_true_eq] at hx
        exact hx.1)
    exact_mod_cast hm
  have hpre : qmul (qdiv (((soft_skills_keywords.filter (fun p =>
      p.2.any (fun kw => containsSub kw.data (lowerL jt.data)) ∧
      p.2.any (fun kw => containsSub kw.data (lowerL rt.data)))).length : ℚ))
      (((soft_skills_keywords.filter (fun p =>
        p.2.any (fun kw => containsSub kw.data (lowerL jt.data)))).length : ℚ)))
      ((c : ℤ) : ℚ) =
      ((soft_skills_keywords.filter (fun p =>
        p.2.any (fun kw => containsSub kw.data (lowerL jt.data)) ∧
        p.2.any (fun kw => containsSub kw.data (lowerL rt.data)))).length : ℚ) /
      ((soft_skills_keywords.filter (fun p =>
        p.2.any (fun kw => containsSub kw.data (lowerL jt.data)))).length : ℚ) *
      ((c : ℤ) : ℚ) := by
    rw [qmul_eq, qdiv_eq]
  have hdiv : ((soft_skills_keywords.filter (fun p =>
      p.2.any (fun kw => containsSub kw.data (lowerL jt.data)) ∧
      p.2.any (fun kw => containsSub kw.data (lowerL rt.data)))).length : ℚ) /
      ((soft_skills_keywords.filter (fun p =>
        p.2.any (fun kw => containsSub kw.data (lowerL jt.data)))).length : ℚ) ≤ 1 :=
    div_le_one_of_le hfound (by positivity)
  have hpre0 : 0 ≤ qmul (qdiv (((soft_skills_keywords.filter (fun p =>
      p.2.any (fun kw => containsSub kw.data (lowerL jt.data)) ∧
      p.2.any (fun kw => containsSub kw.data (lowerL rt.data)))).length : ℚ))
      (((soft_skills_keywords.filter (fun p =>
        p.2.any (fun kw => containsSub kw.data (lowerL jt.data)))).length : ℚ)))
      ((c : ℤ) : ℚ) := by
    rw [hpre]
    positivity
  have hpre1 : qmul (qdiv (((soft_skills_keywords.filter (fun p =>
      p.2.any (fun kw => containsSub kw.data (lowerL jt.data)) ∧
      p.2.any (fun kw => containsSub kw.data (lowerL rt.data)))).length : ℚ))
      (((soft_skills_keywords.filter (fun p =>
        p.2.any (fun kw => containsSub kw.data (lowerL jt.data)))).length : ℚ)))
      ((c : ℤ) : ℚ) ≤ ((c : ℤ) : ℚ) := by
    rw [hpre]
    calc _ ≤ 1 * ((c : ℤ) : ℚ) := mul_le_mul_of_nonneg_right hdiv hc'
      _ = ((c : ℤ) : ℚ) := one_mul _
  rw [compare_soft_skills]
  dsimp only
  split_ifs <;>
    first
      | exact ⟨pyRound1_nonneg hc', pyRound1_le (le_refl _)⟩
      | exact ⟨pyRound1_nonneg hpre0, pyRound1_le hpre1⟩
      | exact ⟨pyRound1_nonneg (le_refl 0), pyRound1_le hc'⟩

theorem mkEntry_score (sr : ScoreResult) (ns : Bool) : (mkEntry sr ns).score = sr.score := rfl

theorem mkEntry_max (sr : ScoreResult) (ns : Bool) : (mkEntry sr ns).max = sr.max := rfl

theorem mkEntry_ns (sr : ScoreResult) (ns : Bool) : (mkEntry sr ns).not_specified = ns := rfl

theorem mkEntry_percentage_bounds (sr : ScoreResult) (ns : Bool)
    (h0 : 0 ≤ sr.score) (h1 : sr.score ≤ sr.max) :
    0 ≤ (mkEntry sr ns).percentage ∧ (mkEntry sr ns).percentage ≤ 100 := by
  rw [mkEntry]
  dsimp only
  split_ifs with h
  · have hq : qmul (qdiv sr.score sr.max) 100 = sr.score / sr.max * 100 := by
      rw [qmul_eq, qdiv_eq]
    have hdiv : sr.score / sr.max ≤ 1 := div_le_one_of_le h1 (le_of_lt h)
    have hdiv0 : 0 ≤ sr.score / sr.max := div_nonneg h0 (le_of_lt h)
    constructor
    · apply pyRound1_nonneg
      rw [hq]
      positivity
    · have hle : pyRound1 (qmul (qdiv sr.score sr.max) 100) ≤ ((100 : ℤ) : ℚ) := by
        apply pyRound1_le
        rw [hq]
        push_cast
        nlinarith
      calc _ ≤ ((100 : ℤ) : ℚ) := hle
        _ = 100 := by norm_num
  · norm_num

theorem compatibilityRaw_bounds (b : Breakdown)
    (h : ∀ e ∈ validEntries b, 0 ≤ e.score ∧ e.score ≤ e.max) :
    0 ≤ compatibilityRaw b ∧ compatibilityRaw b ≤ 100 := by
  have hq : qmul (qdiv (qsum ((validEntries b).map (fun e => e.score)))
      (qsum ((validEntries b).map (fun e => e.max)))) 100 =
      ((validEntries b).map (fun e => e.score)).sum /
        ((validEntries b).map (fun e => e.max)).sum * 100 := by
    rw [qmul_eq, qdiv_eq, qsum_eq, qsum_eq]
  have hS0 : 0 ≤ ((validEntries b).map (fun e => e.score)).sum := by
    apply List.sum_nonneg
    intro x hx
    obtain ⟨e, he, rfl⟩ := List.mem_map.mp hx
    exact (h e he).1
  have hM0 : 0 ≤ ((validEntries b).map (fun e => e.max)).sum := by
    apply List.sum_nonneg
    intro x hx
    obtain ⟨e, he, rfl⟩ := List.mem_map.mp hx
    exact le_trans (h e he).1 (h e he).2
  have hSM : ((validEntries b).map (fun e => e.score)).sum ≤
      ((validEntries b).map (fun e => e.max)).sum :=
    List.sum_le_sum (fun e he => (h e he).2)
  have hdiv : ((validEntries b).map (fun e => e.score)).sum /
      ((validEntries b).map (fun e => e.max)).sum ≤ 1 := div_le_one_of_le hSM hM0
  rw [compatibilityRaw]
  split_ifs with hv
  · norm_num
  · rw [hq]
    constructor
    · positivity
    · calc _ ≤ 1 * (100 : ℚ) := mul_le_mul_of_nonneg_right hdiv (by norm_num)
        _ = 100 := one_mul _

theorem breakdown_items_explicit (r : ResumeData) (j : JobData) :
    (calculate_detailed_breakdown r j).items =
      [("required_skills", mkEntry (compare_skills_detailed r.skills
          (requiredPreferredSplit j.skills).1 50) r.skills.isEmpty),
       ("preferred_skills", mkEntry (compare_skills_detailed r.skills
          (requiredPreferredSplit j.skills).2 30) r.skills.isEmpty),
       ("experience", mkEntry (compare_experience_detailed r.experience j.requirements 10)
          r.experience.isEmpty),
       ("education", mkEntry (compare_education_detailed r.education j.education_required 5)
          r.education.isEmpty),
       ("soft_skills", mkEntry (compare_soft_skills r.text j.text 5) false)] := rfl

theorem breakdown_entry_bounds (r : ResumeData) (j : JobData) :
    ∀ p ∈ (calculate_detailed_breakdown r j).items,
      0 < p.2.max ∧ 0 ≤ p.2.score ∧ p.2.score ≤ p.2.max ∧
        0 ≤ p.2.percentage ∧ p.2.percentage ≤ 100 := by
  have c50 : ((50 : ℤ) : ℚ) = (50 : ℚ) := by norm_num
  have c30 : ((30 : ℤ) : ℚ) = (30 : ℚ) := by norm_num
  have c10 : ((10 : ℤ) : ℚ) = (10 : ℚ) := by norm_num
  have c5 : ((5 : ℤ) : ℚ) = (5 : ℚ) := by norm_num
  have hreq := compare_skills_detailed_score_bounds r.skills
    (requiredPreferredSplit j.skills).1 50 (by norm_num)
  have hpref := compare_skills_detailed_score_bounds r.skills
    (requiredPreferredSplit j.skills).2 30 (by norm_num)
  have hexp := compare_experience_detailed_score_bounds r.experience j.requirements 10
    (by norm_num)
  have hedu := compare_education_detailed_score_bounds r.education j.education_required 5
    (by norm_num)
  have hsoft := compare_soft_skills_score_bounds r.text j.text 5 (by norm_num)
  rw [c50] at hreq
  rw [c30] at hpref
  rw [c10] at hexp
  rw [c5] at hedu
  rw [c5] at hsoft
  intro p hp
  rw [breakdown_items_explicit] at hp
  simp only [List.mem_cons, List.not_mem_nil, or_false] at hp
  rcases hp with h | h | h | h | h <;> subst h
  · refine ⟨?_, hreq.1, ?_, ?_⟩
    · rw [mkEntry_max, compare_skills_detailed_max]
      norm_num
    · rw [mkEntry_score, mkEntry_max, compare_skills_detailed_max]
      exact hreq.2
    · exact mkEntry_percentage_bounds _ _ hreq.1
        (by rw [compare_skills_detailed_max]; exact hreq.2)
  · refine ⟨?_, hpref.1, ?_, ?_⟩
    · rw [mkEntry_max, compare_skills_detailed_max]
      norm_num
    · rw [mkEntry_score, mkEntry_max, compare_skills_detailed_max]
      exact hpref.2
    · exact mkEntry_percentage_bounds _ _ hpref.1
        (by rw [compare_skills_detailed_max]; exact hpref.2)
  · refine ⟨?_, hexp.1, ?_, ?_⟩
    · rw [mkEntry_max, compare_experience_detailed_max]
      norm_num
    · rw [mkEntry_score, mkEntry_max, compare_experience_detailed_max]
      exact hexp.2
    · exact mkEntry_percentage_bounds _ _ hexp.1
        (by rw [compare_experience_detailed_max]; exact hexp.2)
  · refine ⟨?_, hedu.1, ?_, ?_⟩
    · rw [mkEntry_max, compare_education_detailed_max]
      norm_num
    · rw [mkEntry_score, mkEntry_max, compare_education_detailed_max]
      exact hedu.2
    · exact mkEntry_percentage_bounds _ _ hedu.1
        (by rw [compare_education_detailed_max]; exact hedu.2)
  · refine ⟨?_, hsoft.1, ?_, ?_⟩
    · rw [mkEntry_max, compare_soft_skills_max]
      norm_num
    · rw [mkEntry_score, mkEntry_max, compare_soft_skills_max]
      exact hsoft.2
    · exact mkEntry_percentage_bounds _ _ hsoft.1
        (by rw [compare_soft_skills_max]; exact hsoft.2)

/-! ### Claim theorems -/

/-- C1 (counterexample): in the scenario with resume skills
`["Python", "SQL"]` and the five job skills, the claim asserts that all
five categories enter the percentage denominator and that the overall
percentage is ≈ 53.3.  In fact the experience and education categories
carry `not_specified = true` (the resume texts are empty), they are
excluded, and `analyze` returns 45.06 — not within 0.1 of 53.3. -/
theorem c1_counterexample :
    (calculate_detailed_breakdown c1Resume c1Job).experience.not_specified = true ∧
    (calculate_detailed_breakdown c1Resume c1Job).education.not_specified = true ∧
    (analyze c1Resume c1Job).compatibility_percentage = Rat.divInt 4506 100 ∧
    (analyze c1Resume c1Job).compatibility_percentage < Rat.divInt 532 10 := by
  decide

/-- C1 (amended): in that scenario the category scores are 33.3 / 0 / 10 /
5 / 5 as claimed, but experience and education are `not_specified` and are
dropped from the percentage, which is computed over
required_skills + preferred_skills + soft_skills only:
`(33.3 + 0 + 5) / (50 + 30 + 5) × 100`, returned as 45.06. -/
theorem c1_amended_scenario :
    (calculate_detailed_breakdown c1Resume c1Job).required_skills.score = Rat.divInt 333 10 ∧
    (calculate_detailed_breakdown c1Resume c1Job).preferred_skills.score = 0 ∧
    (calculate_detailed_breakdown c1Resume c1Job).experience.score = 10 ∧
    (calculate_detailed_breakdown c1Resume c1Job).education.score = 5 ∧
    (calculate_detailed_breakdown c1Resume c1Job).soft_skills.score = 5 ∧
    (calculate_detailed_breakdown c1Resume c1Job).required_skills.not_specified = false ∧
    (calculate_detailed_breakdown c1Resume c1Job).preferred_skills.not_specified = false ∧
    (calculate_detailed_breakdown c1Resume c1Job).soft_skills.not_specified = false ∧
    (calculate_detailed_breakdown c1Resume c1Job).experience.not_specified = true ∧
    (calculate_detailed_breakdown c1Resume c1Job).education.not_specified = true ∧
    validEntries (calculate_detailed_breakdown c1Resume c1Job) =
      [(calculate_detailed_breakdown c1Resume c1Job).required_skills,
       (calculate_detailed_breakdown c1Resume c1Job).preferred_skills,
       (calculate_detailed_breakdown c1Resume c1Job).soft_skills] ∧
    qsum ((validEntries (calculate_detailed_breakdown c1Resume c1Job)).map
      (fun e => e.max)) = 85 ∧
    (analyze c1Resume c1Job).compatibility_percentage = Rat.divInt 4506 100 := by
  decide

/-- C2: `analyze` computes the compatibility percentage exactly as the
specification words it — scores summed over the categories whose
`not_specified` flag is false, divided by the sum of `max` over those same
categories, times 100 (0 if every category is excluded), then rounded to
two decimals; a category with `not_specified = true` is excluded from both
sums by the very same filter. -/
theorem c2_compatibility_formula (r : ResumeData) (j : JobData) :
    (analyze r j).compatibility_percentage =
      pyRound2 (specCompatibilityPercentage (calculate_detailed_breakdown r j)) ∧
    validEntries (calculate_detailed_breakdown r j) =
      ((calculate_detailed_breakdown r j).items.map (fun p => p.2)).filter
        (fun e => e.not_specified = false) := by
  refine ⟨?_, validEntries_eq _⟩
  have h : (analyze r j).compatibility_percentage =
      pyRound2 (compatibilityRaw (calculate_detailed_breakdown r j)) := rfl
  rw [h, compatibilityRaw_eq_spec]

/-- C3 (counterexample): for a four-skill job list the code splits at
`int(4 * 0.6) = 2` (truncation), not at `ceil(0.6 × 4) = 3` as claimed:
the required part is the first two skills, not the first three. -/
theorem c3_counterexample :
    requiredPreferredSplit ["A", "B", "C", "D"] = (["A", "B"], ["C", "D"]) ∧
    (⌈(6 : ℚ) / 10 * 4⌉ : ℤ) = 3 ∧
    ((requiredPreferredSplit ["A", "B", "C", "D"]).1.length : ℤ) ≠ 3 := by
  refine ⟨by decide, ?_, by decide⟩
  rw [Int.ceil_eq_iff]
  constructor <;> norm_num

/-- C3 (amended): for a non-empty job-skill list of length n the split
index is `max 1 ⌊0.6 × n⌋` (floor, not ceiling): the first
`max 1 ⌊0.6 n⌋` skills are required, the rest preferred; for an empty
list both parts are empty. -/
theorem c3_amended_split (job_skills : List String) :
    (job_skills ≠ [] →
      requiredPreferredSplit job_skills =
        (job_skills.take (pyMaxN 1 (Int.toNat ⌊(6 : ℚ) / 10 * (job_skills.length : ℚ)⌋)),
         job_skills.drop (pyMaxN 1 (Int.toNat ⌊(6 : ℚ) / 10 * (job_skills.length : ℚ)⌋)))) ∧
    (job_skills = [] → requiredPreferredSplit job_skills = ([], [])) := by
  constructor
  · intro h
    have h1 : (6 : ℚ) / 10 * (job_skills.length : ℚ) =
        ((3 * (job_skills.length : ℤ) : ℤ) : ℚ) / ((5 : ℕ) : ℚ) := by
      push_cast
      ring
    have hlen : Int.toNat ⌊(6 : ℚ) / 10 * (job_skills.length : ℚ)⌋ =
        3 * job_skills.length / 5 := by
      rw [h1, Rat.floor_intCast_div_natCast]
      omega
    rw [requiredPreferredSplit, if_pos (fun hc => h (List.isEmpty_iff.mp hc)), hlen]
  · intro h
    subst h
    rfl

/-- C3 (witness). -/
theorem c3_amended_split_witness :
    (["P", "Q"] : List String) ≠ [] ∧
    requiredPreferredSplit ["P", "Q"] =
      (["P", "Q"].take (pyMaxN 1 (Int.toNat ⌊(6 : ℚ) / 10 * (([("P" : String), "Q"]).length : ℚ)⌋)),
       ["P", "Q"].drop (pyMaxN 1 (Int.toNat ⌊(6 : ℚ) / 10 * (([("P" : String), "Q"]).length : ℚ)⌋))) :=
  ⟨by decide, (c3_amended_split ["P", "Q"]).1 (by decide)⟩

/-- C4: the skill-list overlap ratio is always in [0, 1]; it is 1 when the
job list is empty and 0 when the resume list is empty while the job list
is not; the scaled detailed comparison awards the full max score for an
empty job-skill list and 0 for an empty resume-skill list against a
non-empty job-skill list. -/
theorem c4_overlap_edge_cases :
    (∀ a b : List String, 0 ≤ compare_skills a b ∧ compare_skills a b ≤ 1) ∧
    (∀ a : List String, compare_skills a [] = 1) ∧
    (∀ b : List String, b ≠ [] → compare_skills [] b = 0) ∧
    (∀ (a : List String) (m : ℚ), (compare_skills_detailed a [] m).score = m ∧
      (compare_skills_detailed a [] m).max = m) ∧
    (∀ (b : List String) (m : ℚ), b ≠ [] →
      (compare_skills_detailed [] b m).score = 0 ∧ (compare_skills_detailed [] b m).max = m) := by
  refine ⟨?_, ?_, ?_, ?_, ?_⟩
  · intro a b
    rw [compare_skills]
    dsimp only
    split_ifs with h1 h2
    · norm_num
    · norm_num
    · have hn : (0 : ℚ) ≤ ((b.map lowerS).length : ℚ) := by positivity
      have hratio : 0 ≤ qdiv (((b.map lowerS).dedup.filter
          (fun s => s ∈ a.map lowerS)).length : ℚ) ((b.map lowerS).length : ℚ) := by
        rw [qdiv_eq]
        positivity
      rw [pyMin]
      split_ifs with h3
      · exact ⟨hratio, h3⟩
      · norm_num
  · intro a
    rfl
  · intro b hb
    rw [compare_skills, if_neg (fun hc => hb (List.isEmpty_iff.mp hc))]
    rfl
  · intro a m
    exact ⟨rfl, rfl⟩
  · intro b m hb
    rw [compare_skills_detailed, if_neg (fun hc => hb (List.isEmpty_iff.mp hc))]
    exact ⟨rfl, rfl⟩

/-- C4 (witness). -/
theorem c4_overlap_edge_cases_witness :
    (0 ≤ compare_skills ["x"] ["y"] ∧ compare_skills ["x"] ["y"] ≤ 1) ∧
    compare_skills ["x"] [] = 1 ∧
    compare_skills [] ["y"] = 0 ∧
    (compare_skills_detailed ["x"] [] 7).score = 7 ∧
    (compare_skills_detailed [] ["y"] 7).score = 0 :=
  ⟨c4_overlap_edge_cases.1 ["x"] ["y"],
   c4_overlap_edge_cases.2.1 ["x"],
   c4_overlap_edge_cases.2.2.1 ["y"] (by decide),
   (c4_overlap_edge_cases.2.2.2.1 ["x"] 7).1,
   (c4_overlap_edge_cases.2.2.2.2 ["y"] 7 (by decide)).1⟩

/-- C10: the soft-skills entry always has `not_specified = false`, so the
set of categories entering the percentage is never empty, the denominator
is at least 5 (the soft-skills max), and the 0-returning fallback branch
of `analyze` is unreachable: the percentage always equals the ratio
formula. -/
theorem c10_soft_skills_always_counted (r : ResumeData) (j : JobData) :
    (calculate_detailed_breakdown r j).soft_skills.not_specified = false ∧
    validEntries (calculate_detailed_breakdown r j) ≠ [] ∧
    (5 : ℚ) ≤ ((validEntries (calculate_detailed_breakdown r j)).map (fun e => e.max)).sum ∧
    compatibilityRaw (calculate_detailed_breakdown r j) =
      qmul (qdiv
        (qsum ((validEntries (calculate_detailed_breakdown r j)).map (fun e => e.score)))
        (qsum ((validEntries (calculate_detailed_breakdown r j)).map (fun e => e.max)))) 100 := by
  have hpair : ("soft_skills", mkEntry (compare_soft_skills r.text j.text 5) false) ∈
      (calculate_detailed_breakdown r j).items := by
    rw [breakdown_items_explicit]
    simp
  have hsoftmem : mkEntry (compare_soft_skills r.text j.text 5) false ∈
      validEntries (calculate_detailed_breakdown r j) := by
    rw [validEntries]
    exact List.mem_map.mpr ⟨_, List.mem_filter.mpr ⟨hpair, by simp [mkEntry_ns]⟩, rfl⟩
  have hne : validEntries (calculate_detailed_breakdown r j) ≠ [] :=
    List.ne_nil_of_mem hsoftmem
  refine ⟨rfl, hne, ?_, ?_⟩
  · have h5mem : (5 : ℚ) ∈ (validEntries (calculate_detailed_breakdown r j)).map
        (fun e => e.max) := by
      have hm := List.mem_map_of_mem (fun e => e.max) hsoftmem
      dsimp only at hm
      rwa [mkEntry_max, compare_soft_skills_max] at hm
    have hnn : ∀ x ∈ (validEntries (calculate_detailed_breakdown r j)).map (fun e => e.max),
        (0 : ℚ) ≤ x := by
      intro x hx
      obtain ⟨e, he, rfl⟩ := List.mem_map.mp hx
      rw [validEntries] at he
      obtain ⟨p, hpf, rfl⟩ := List.mem_map.mp he
      exact le_of_lt (breakdown_entry_bounds r j p (List.mem_filter.mp hpf).1).1
    exact List.single_le_sum hnn 5 h5mem
  · rw [compatibilityRaw]
    split_ifs with hv
    · exact absurd (List.isEmpty_iff.mp hv) hne
    · rfl

/-- C5: the compatibility percentage returned by `analyze` lies in
[0, 100], and every breakdown category has positive max, a score within
[0, max] even after per-category rounding, and a percentage within
[0, 100]. -/
theorem c5_bounds (r : ResumeData) (j : JobData) :
    (0 ≤ (analyze r j).compatibility_percentage ∧
      (analyze r j).compatibility_percentage ≤ 100) ∧
    ∀ p ∈ (analyze r j).breakdown.items,
      0 < p.2.max ∧ 0 ≤ p.2.score ∧ p.2.score ≤ p.2.max ∧
        0 ≤ p.2.percentage ∧ p.2.percentage ≤ 100 := by
  have hbd : (analyze r j).breakdown = calculate_detailed_breakdown r j := rfl
  have hentries := breakdown_entry_bounds r j
  have hvalid : ∀ e ∈ validEntries (calculate_detailed_breakdown r j),
      0 ≤ e.score ∧ e.score ≤ e.max := by
    intro e he
    rw [validEntries] at he
    obtain ⟨p, hpf, rfl⟩ := List.mem_map.mp he
    obtain ⟨hp, -⟩ := List.mem_filter.mp hpf
    exact ⟨(hentries p hp).2.1, (hentries p hp).2.2.1⟩
  have hcraw := compatibilityRaw_bounds _ hvalid
  constructor
  · have h : (analyze r j).compatibility_percentage =
        pyRound2 (compatibilityRaw (calculate_detailed_breakdown r j)) := rfl
    rw [h]
    refine ⟨pyRound2_nonneg hcraw.1, ?_⟩
    have hle := @pyRound2_le (compatibilityRaw (calculate_detailed_breakdown r j)) 100
      (by exact_mod_cast hcraw.2)
    calc _ ≤ ((100 : ℤ) : ℚ) := hle
      _ = 100 := by norm_num
  · rw [hbd]
    exact hentries

/-- C5 (witness). -/
theorem c5_bounds_witness :
    (0 ≤ (analyze c1Resume c1Job).compatibility_percentage ∧
      (analyze c1Resume c1Job).compatibility_percentage ≤ 100) ∧
    (0 < ("soft_skills", (analyze c1Resume c1Job).breakdown.soft_skills).2.max ∧
      0 ≤ ("soft_skills", (analyze c1Resume c1Job).breakdown.soft_skills).2.score ∧
      ("soft_skills", (analyze c1Resume c1Job).breakdown.soft_skills).2.score ≤
        ("soft_skills", (analyze c1Resume c1Job).breakdown.soft_skills).2.max ∧
      0 ≤ ("soft_skills", (analyze c1Resume c1Job).breakdown.soft_skills).2.percentage ∧
      ("soft_skills", (analyze c1Resume c1Job).breakdown.soft_skills).2.percentage ≤ 100) :=
  ⟨(c5_bounds c1Resume c1Job).1,
   (c5_bounds c1Resume c1Job).2
     ("soft_skills", (analyze c1Resume c1Job).breakdown.soft_skills) (by decide)⟩

/-- C6: the skills table has exactly one row per job skill, in job-skill
order; every row's status is present, partial or missing, with action "-"
for present, a practice message naming the skill for partial, and a learn
message naming the skill for missing. -/
theorem c6_skills_table (r : ResumeData) (j : JobData) :
    (create_skills_table r j).length = j.skills.length ∧
    (∀ i : ℕ, ((create_skills_table r j).get? i).map (fun row => row.skill) =
      j.skills.get? i) ∧
    ∀ row ∈ create_skills_table r j,
      (row.status = "present" ∨ row.status = "partial" ∨ row.status = "missing") ∧
      (row.status = "present" → row.action = "-") ∧
      (row.status = "partial" → row.action = "Практиковать " ++ row.skill) ∧
      (row.status = "missing" → row.action = "Изучить " ++ row.skill) := by
  have hct : create_skills_table r j =
      j.skills.map (skillRow (r.skills.map lowerS) r.text) := rfl
  refine ⟨?_, ?_, ?_⟩
  · rw [hct, List.length_map]
  · intro i
    rw [hct, List.get?_map]
    cases h : j.skills.get? i with
    | none => rfl
    | some s => simp [skillRow_skill]
  · intro row hrow
    rw [hct] at hrow
    obtain ⟨s, hs, rfl⟩ := List.mem_map.mp hrow
    rw [skillRow]
    split_ifs with h1 h2
    · refine ⟨Or.inl rfl, fun _ => rfl, fun hc => ?_, fun hc => ?_⟩ <;>
        (dsimp only at hc; exact absurd hc (by decide))
    · refine ⟨Or.inr (Or.inl rfl), fun hc => ?_, fun _ => rfl, fun hc => ?_⟩ <;>
        (dsimp only at hc; exact absurd hc (by decide))
    · refine ⟨Or.inr (Or.inr rfl), fun hc => ?_, fun hc => ?_, fun _ => rfl⟩ <;>
        (dsimp only at hc; exact absurd hc (by decide))

/-- C6 (witness). -/
theorem c6_skills_table_witness :
    (create_skills_table c6Resume c6Job).length = c6Job.skills.length ∧
    (c6Row.status = "present" ∨ c6Row.status = "partial" ∨ c6Row.status = "missing") ∧
    (c6Row.status = "present" → c6Row.action = "-") :=
  ⟨(c6_skills_table c6Resume c6Job).1,
   ((c6_skills_table c6Resume c6Job).2.2 c6Row (by decide)).1,
   ((c6_skills_table c6Resume c6Job).2.2 c6Row (by decide)).2.1⟩

/-- C7 (code_bug, evaluation at the failing input): the input text
mentions only "Github" — the token "github" occurs, and no standalone
word "git" remains after the longer tokens are removed — yet the skill
extractor reports "Git", because the secondary marker-pattern pass
("Навыки: X") resolves the capture "Github" by a substring test that
matches the synonym "git" inside "github", bypassing the boundary-safety
special case of the first pass. -/
theorem c7_github_reports_git :
    containsSub "github".data (lowerL c7Text.data) = true ∧
    searchWB "git".data (removeAll "bitbucket".data (removeAll "gitlab".data
      (removeAll "github".data (lowerL c7Text.data)))) = false ∧
    extract_skills c7Text = ["Git"] := by
  decide

/-- C8 (counterexample): with non-empty skill lists on both sides and a
case-insensitive match ratio of 1/3 < 0.5, the recommendations returned
by `analyze` contain no ATS tip — `analyze` uses the motivational
generator, not the gap-based one that appends the tip. -/
theorem c8_counterexample :
    ¬ c8Resume.skills.isEmpty ∧ ¬ c8Job.skills.isEmpty ∧
    qdiv ((((c8Job.skills.map lowerS).dedup.filter
      (fun s => s ∈ c8Resume.skills.map lowerS)).length : ℚ))
      ((c8Job.skills.length : ℚ)) < Rat.divInt 1 2 ∧
    ¬ ats_tip ∈ (analyze c8Resume c8Job).recommendations ∧
    (analyze c8Resume c8Job).recommendations.all
      (fun s => ¬ containsSub "ATS".data s.data) := by
  decide

/-- C8 (amended): the ATS-keyword-alignment tip is appended by the
gap-based generator `_generate_recommendations` whenever both skill lists
are non-empty and the match ratio is below 0.5 — for every TF-IDF oracle
and every gap list — but `analyze` never calls that generator, so the tip
never appears in `analyze`'s output. -/
theorem c8_amended_ats_tip (tfidf : String → String → Except Unit ℚ) (gaps : List Gap)
    (r : ResumeData) (j : JobData) (hr : ¬ r.skills.isEmpty) (hj : ¬ j.skills.isEmpty)
    (hratio : qdiv ((((j.skills.map lowerS).dedup.filter
      (fun s => s ∈ r.skills.map lowerS)).length : ℚ)) ((j.skills.length : ℚ)) <
      Rat.divInt 1 2) :
    ats_tip ∈ generate_recommendations tfidf gaps r j := by
  rw [generate_recommendations]
  dsimp only
  refine List.mem_append.mpr (Or.inr ?_)
  rw [if_pos ⟨hr, hj⟩, if_pos hratio]
  exact List.mem_singleton.mpr rfl

/-- C8 (witness). -/
theorem c8_amended_ats_tip_witness :
    ats_tip ∈ generate_recommendations c8Oracle [] c8Resume c8Job :=
  c8_amended_ats_tip c8Oracle [] c8Resume c8Job (by decide) (by decide) (by decide)

/-- C9: the vector-space text comparison returns 0 whenever either input
text is empty, and whenever the TF-IDF oracle fails (raises) it returns
the bag-of-words overlap of the two 5000-character-truncated texts; the
function is total, so no failure of this path reaches the caller. -/
theorem c9_compare_texts_fallback (tfidf : String → String → Except Unit ℚ)
    (t1 t2 : String) :
    ((t1.isEmpty ∨ t2.isEmpty) → compare_texts tfidf t1 t2 = 0) ∧
    (¬ t1.isEmpty → ¬ t2.isEmpty → ∀ e : Unit,
      tfidf (String.mk (t1.data.take 5000)) (String.mk (t2.data.take 5000)) =
        Except.error e →
      compare_texts tfidf t1 t2 =
        simple_text_comparison (String.mk (t1.data.take 5000))
          (String.mk (t2.data.take 5000))) := by
  constructor
  · intro h
    rw [compare_texts, if_pos h]
  · intro h1 h2 e he
    rw [compare_texts, if_neg (fun hc => hc.elim h1 h2)]
    dsimp only
    rw [he]

/-- C9 (witness). -/
theorem c9_compare_texts_fallback_witness :
    compare_texts c9FailingOracle "" "b" = 0 ∧
    compare_texts c9FailingOracle "a" "b" = simple_text_comparison "a" "b" := by
  constructor
  · exact (c9_compare_texts_fallback c9FailingOracle "" "b").1 (Or.inl rfl)
  · exact (c9_compare_texts_fallback c9FailingOracle "a" "b").2 (by decide) (by decide) () rfl
